import Mathlib

/-!
Verification of the Pub/Sub client library core: the publisher batching
engine, the subscriber pull/dispatch loop, the acknowledgement handler,
and the default subscriber transport stub.

The transport stub is embedded directly from
src/google/cloud/pubsub/internal/subscriber_stub.cc.  The batching engine,
subscriber connection and AckHandler are distributed only as headers plus
unit tests in this repository, so their behaviour is modelled from the
specification (sections 4.2, 4.3 and 4.4) and cross-checked against the
unit tests in batching_publisher_connection_test.cc and
subscriber_connection_test.cc.
-/

/-- Status codes of the unified error taxonomy (spec section 7). -/
inductive StatusCode where
  | ok
  | cancelled
  | unknown
  | invalidArgument
  | deadlineExceeded
  | notFound
  | alreadyExists
  | permissionDenied
  | resourceExhausted
  | failedPrecondition
  | aborted
  | outOfRange
  | unimplemented
  | internalError
  | unavailable
  | dataLoss
  | unauthenticated
deriving DecidableEq, Repr

/-- A status: a code plus a human-readable message. -/
structure Status where
  code : StatusCode
  message : String
deriving DecidableEq, Repr

/-- The default-constructed `Status{}`: OK with an empty message. -/
def statusOK : Status := { code := StatusCode.ok, message := "" }

/-- A Pub/Sub message as the core sees it: payload bytes and the
server-assigned identifier (empty on the send side). -/
structure Message where
  data : String
  message_id : String := ""
deriving DecidableEq, Repr

/-- The publish RPC response: one server message id per published message. -/
structure PublishResponse where
  message_ids : List String
deriving DecidableEq, Repr

/-- The status used for a publish response whose message-id cardinality does
not match the batch size (spec section 7). -/
def mismatchedIdStatus : Status :=
  { code := StatusCode.unknown, message := "mismatched message id count" }

/-- Modelled from the spec: the response handling of the flush action in
the publisher batching engine (section 4.2), whose implementation file
`batching_publisher_connection.cc` is not in the repository snapshot.
When the `AsyncPublish` response future resolves, each promise of the
flushed batch is satisfied: on success with matching cardinality, promise
`i` receives the server message id at position `i`; on success with a
mismatched cardinality, every promise receives UNKNOWN
"mismatched message id count"; on failure, every promise receives the
failing status unchanged. -/
def satisfyPromises (batch : List Message) (r : Except Status PublishResponse) :
    List (Except Status String) :=
  match r with
  | Except.error s => batch.map fun _ => Except.error s
  | Except.ok resp =>
      if resp.message_ids.length = batch.length then
        resp.message_ids.map Except.ok
      else
        batch.map fun _ => Except.error mismatchedIdStatus

/-- C1: For a batch whose AsyncPublish response succeeds with exactly as many
message ids as batch entries, the promise list has one outcome per batch
entry, and the submitter at position `i` receives OK with the server
message id at the same position `i`, preserving submission order. -/
theorem satisfyPromises_ok_positional (batch : List Message) (resp : PublishResponse)
    (h : resp.message_ids.length = batch.length) :
    (satisfyPromises batch (Except.ok resp)).length = batch.length ∧
      ∀ i : Nat, i < batch.length →
        (satisfyPromises batch (Except.ok resp)).get? i =
          (resp.message_ids.get? i).map Except.ok := by
  constructor
  · simp [satisfyPromises, h]
  · intro i hi
    simp [satisfyPromises, h, List.get?_eq_getElem?, List.getElem?_map]

/-- Witness for C1: a concrete two-message batch with response ids
"mid-0", "mid-1" dispatches positionally. -/
theorem satisfyPromises_ok_positional_witness :
    (satisfyPromises [{ data := "test-data-0" }, { data := "test-data-1" }]
        (Except.ok { message_ids := ["mid-0", "mid-1"] })).get? 1 =
      some (Except.ok "mid-1") := by
  have h := satisfyPromises_ok_positional
    [{ data := "test-data-0" }, { data := "test-data-1" }]
    { message_ids := ["mid-0", "mid-1"] } (by decide)
  have h1 := h.2 1 (by decide)
  rw [h1]
  rfl

/-- C4: For a batch whose AsyncPublish response succeeds but whose
message-id count differs from the batch size, every promise in the batch
is satisfied with status UNKNOWN and message "mismatched message id
count". -/
theorem satisfyPromises_mismatch (batch : List Message) (resp : PublishResponse)
    (h : resp.message_ids.length ≠ batch.length) :
    (satisfyPromises batch (Except.ok resp)).length = batch.length ∧
      ∀ r ∈ satisfyPromises batch (Except.ok resp),
        r = Except.error { code := StatusCode.unknown,
                           message := "mismatched message id count" } := by
  constructor
  · simp [satisfyPromises, h]
  · intro r hr
    simp only [satisfyPromises, if_neg h, List.mem_map] at hr
    obtain ⟨m, _, hm⟩ := hr
    exact hm.symm ▸ rfl

/-- Witness for C4: an empty response against a two-message batch (the
HandleInvalidResponse scenario) marks both promises UNKNOWN. -/
theorem satisfyPromises_mismatch_witness :
    (satisfyPromises [{ data := "test-data-0" }, { data := "test-data-1" }]
        (Except.ok { message_ids := [] })).length = 2 ∧
      ∀ r ∈ satisfyPromises [{ data := "test-data-0" }, { data := "test-data-1" }]
          (Except.ok { message_ids := [] }),
        r = Except.error { code := StatusCode.unknown,
                           message := "mismatched message id count" } :=
  satisfyPromises_mismatch
    [{ data := "test-data-0" }, { data := "test-data-1" }]
    { message_ids := [] } (by decide)

/-- C5: For a batch whose AsyncPublish call fails, every message's promise
in that batch is satisfied with the same failing status, unchanged (same
code and same message text). -/
theorem satisfyPromises_error (batch : List Message) (s : Status) :
    (satisfyPromises batch (Except.error s)).length = batch.length ∧
      ∀ r ∈ satisfyPromises batch (Except.error s), r = Except.error s := by
  constructor
  · simp [satisfyPromises]
  · intro r hr
    simp only [satisfyPromises, List.mem_map] at hr
    obtain ⟨m, _, hm⟩ := hr
    exact hm.symm ▸ rfl

/-- The recognized batching options with their defaults
(spec section 3, BatchingConfig). Hold time is in milliseconds. -/
structure BatchingConfig where
  maximum_message_count : Nat := 100
  maximum_batch_bytes : Nat := 1024 * 1024
  maximum_hold_time : Nat := 10
deriving DecidableEq, Repr

/-- Modelled from the spec: the serialized wire size of one message, the
quantity accumulated into the pending batch's byte count (section 3,
PendingBatch invariant).  Modelled as the payload byte count. -/
def serializedSize (m : Message) : Nat := m.data.length

/-- The state of the publisher batching engine: the pending batch (messages
in submission order), its accumulated byte count, the flush generation
counter, the generation of the armed hold timer (if any), the list of
AsyncPublish requests issued so far (each carrying its batch's messages in
submission order), and the messages whose Publish failed synchronously
with the status code they received, in submission order. -/
structure EngineState where
  pending : List Message
  byte_count : Nat
  generation : Nat
  timer_generation : Option Nat
  calls : List (List Message)
  rejected : List (Message × StatusCode)
deriving DecidableEq, Repr

/-- The engine state right after construction: nothing pending, no calls. -/
def initialEngine : EngineState :=
  { pending := [], byte_count := 0, generation := 0,
    timer_generation := none, calls := [], rejected := [] }

/-- Modelled from the spec: the flush action of the batching engine
(section 4.2), whose implementation file `batching_publisher_connection.cc`
is not in the repository snapshot.  If the pending batch is empty it does
nothing; otherwise it detaches the pending batch, resets the byte count,
bumps the flush generation (invalidating any armed timer callback) and
submits one AsyncPublish request carrying the batch. -/
def flush (s : EngineState) : EngineState :=
  if s.pending.isEmpty then s
  else
    { s with pending := [], byte_count := 0, generation := s.generation + 1,
             calls := s.calls ++ [s.pending] }

/-- Modelled from the spec: `Publish` of the batching engine
(section 4.2), whose implementation file is not in the repository
snapshot.  A message whose own serialized size exceeds
`maximum_batch_bytes` fails immediately with INVALID_ARGUMENT: it is not
appended, it is never split, and no transport call is made for it
(sections 4.2 and 7).  Otherwise the message is appended to the pending
batch, its serialized size is added to the byte count, and the flush
triggers are evaluated in order: flush now if the pending count reached
`maximum_message_count`, else flush now if the byte count reached
`maximum_batch_bytes`, else if this is the first message of a new batch
arm the hold timer for the current generation. -/
def publish (cfg : BatchingConfig) (s : EngineState) (m : Message) : EngineState :=
  if cfg.maximum_batch_bytes < serializedSize m then
    { s with rejected := s.rejected ++ [(m, StatusCode.invalidArgument)] }
  else
    let pending := s.pending ++ [m]
    let bc := s.byte_count + serializedSize m
    let s1 : EngineState := { s with pending := pending, byte_count := bc }
    if cfg.maximum_message_count ≤ pending.length then flush s1
    else if cfg.maximum_batch_bytes ≤ bc then flush s1
    else if pending.length = 1 then { s1 with timer_generation := some s1.generation }
    else s1

/-- An oversized message fails synchronously with INVALID_ARGUMENT and
without calling the transport: the pending batch, byte count and issued
calls are untouched, and the rejection is recorded (spec sections 4.2
and 7). -/
theorem publish_oversized (cfg : BatchingConfig) (s : EngineState) (m : Message)
    (hbig : cfg.maximum_batch_bytes < serializedSize m) :
    publish cfg s m =
      { s with rejected := s.rejected ++ [(m, StatusCode.invalidArgument)] } := by
  simp [publish, hbig]

/-- Modelled from the spec: the hold-timer callback (section 4.2, trigger 3
and section 9, timer-vs-size race).  It flushes only if the batch's flush
generation has not changed since the timer was armed. -/
def timerExpired (s : EngineState) (armedGeneration : Nat) : EngineState :=
  if armedGeneration = s.generation then flush s else s

/-- C2: With maximum_message_count = 2 and message sizes small enough that
the byte trigger cannot fire first (no timer event is processed),
publishing two messages issues no AsyncPublish after the first publish and
exactly one AsyncPublish after the second, carrying both messages in
submission order; the count trigger empties the pending batch immediately
after the second append. -/
theorem publish_batchByMessageCount (cfg : BatchingConfig) (m0 m1 : Message)
    (hcount : cfg.maximum_message_count = 2)
    (h0 : serializedSize m0 < cfg.maximum_batch_bytes)
    (h1 : serializedSize m0 + serializedSize m1 < cfg.maximum_batch_bytes) :
    (publish cfg initialEngine m0).calls = [] ∧
      (publish cfg (publish cfg initialEngine m0) m1).calls = [[m0, m1]] ∧
      (publish cfg (publish cfg initialEngine m0) m1).pending = [] := by
  have e1 : publish cfg initialEngine m0 =
      { pending := [m0], byte_count := serializedSize m0, generation := 0,
        timer_generation := some 0, calls := [], rejected := [] } := by
    simp only [publish, initialEngine]
    simp only [List.nil_append, List.length_singleton, Nat.zero_add]
    rw [if_neg (by omega), if_neg (by omega), if_neg (by omega)]
    simp
  have e2 : publish cfg (publish cfg initialEngine m0) m1 =
      { pending := [], byte_count := 0, generation := 1,
        timer_generation := some 0, calls := [[m0, m1]], rejected := [] } := by
    rw [e1]
    simp only [publish, flush]
    rw [if_neg (by omega)]
    rw [if_pos (by simp [hcount])]
    simp [flush]
  refine ⟨by rw [e1], by rw [e2], by rw [e2]⟩

/-- Witness for C2: the BatchByMessageCount scenario, messages
"test-data-0" and "test-data-1" under the default 1 MiB byte bound. -/
theorem publish_batchByMessageCount_witness :
    (publish { maximum_message_count := 2 }
        (publish { maximum_message_count := 2 } initialEngine { data := "test-data-0" })
        { data := "test-data-1" }).calls =
      [[{ data := "test-data-0" }, { data := "test-data-1" }]] :=
  (publish_batchByMessageCount { maximum_message_count := 2 }
    { data := "test-data-0" } { data := "test-data-1" }
    rfl (by decide) (by decide)).2.1

/-- C8: For a message that is itself within the byte bound (so the
oversized-input INVALID_ARGUMENT rejection does not apply), whenever the
count trigger does not fire but the accumulated byte count of the pending
batch reaches maximum_batch_bytes, the publish that crossed the bound
flushes immediately: it issues exactly one additional AsyncPublish
carrying the pending messages plus the new one in submission order, and
the pending batch becomes empty. -/
theorem publish_byte_trigger (cfg : BatchingConfig) (s : EngineState) (m : Message)
    (hsize : serializedSize m ≤ cfg.maximum_batch_bytes)
    (hcount : (s.pending ++ [m]).length < cfg.maximum_message_count)
    (hbytes : cfg.maximum_batch_bytes ≤ s.byte_count + serializedSize m) :
    (publish cfg s m).calls = s.calls ++ [s.pending ++ [m]] ∧
      (publish cfg s m).pending = [] := by
  have hne : ((s.pending ++ [m]).isEmpty) = false := by
    simp
  simp only [publish]
  rw [if_neg (by omega), if_neg (by omega), if_pos hbytes]
  simp [flush, hne]

/-- Witness for C8: the BatchByMessageSize scenario, count bound 4 and byte
bound 14 = sizeof("test-data-N") + 2; the second 11-byte message crosses
the bound and both messages go out in one AsyncPublish. -/
theorem publish_byte_trigger_witness :
    (publish { maximum_message_count := 4, maximum_batch_bytes := 14 }
        (publish { maximum_message_count := 4, maximum_batch_bytes := 14 }
          initialEngine { data := "test-data-0" })
        { data := "test-data-1" }).calls =
      [[{ data := "test-data-0" }, { data := "test-data-1" }]] := by
  have h := publish_byte_trigger
    { maximum_message_count := 4, maximum_batch_bytes := 14 }
    (publish { maximum_message_count := 4, maximum_batch_bytes := 14 }
      initialEngine { data := "test-data-0" })
    { data := "test-data-1" } (by decide) (by decide) (by decide)
  rw [h.1]
  rfl

/-- One received message of a pull response: the delivery's ack id and the
message itself. -/
structure ReceivedMessage where
  ack_id : String
  message : Message
deriving DecidableEq, Repr

/-- The pull RPC response: zero or more received messages. -/
structure PullResponse where
  received_messages : List ReceivedMessage
deriving DecidableEq, Repr

/-- Modelled from the spec: the subscriber pull loop (section 4.3), whose
implementation file `subscriber_connection.cc` is not in the repository
snapshot.  `cancelled n` tells whether the session's cancellation flag is
set when iteration `n` begins; `pulls n` is the result of the n-th Pull
call.  Each iteration first checks the cancellation flag (if set, the
session completes with OK), then issues Pull; a failing Pull terminates
the session with that status; a successful Pull schedules the handler for
each received message and re-enters the loop.  The result is the session
status, the messages dispatched to the handler in order, and the number
of Pull calls issued; `none` means the fuel ran out before termination. -/
def pullLoop (cancelled : Nat → Bool) (pulls : Nat → Except Status PullResponse) :
    Nat → Nat → Option (Status × List ReceivedMessage × Nat)
  | 0, _ => none
  | fuel + 1, n =>
      if cancelled n then some (statusOK, [], 0)
      else
        match pulls n with
        | Except.error s => some (s, [], 1)
        | Except.ok resp =>
            match pullLoop cancelled pulls fuel (n + 1) with
            | none => none
            | some (s, handled, k) =>
                some (s, resp.received_messages ++ handled, k + 1)

/-- C3: If the session is not cancelled and its first Pull returns a failing
status, the session terminates with exactly that status (same code and
message), the handler is dispatched no message at all, and the loop stops
after that single Pull call — no retry, regardless of remaining fuel. -/
theorem pullLoop_failure (cancelled : Nat → Bool)
    (pulls : Nat → Except Status PullResponse) (fuel : Nat) (s : Status)
    (hc : cancelled 0 = false) (hp : pulls 0 = Except.error s) :
    pullLoop cancelled pulls (fuel + 1) 0 = some (s, [], 1) := by
  simp [pullLoop, hc, hp]

/-- Witness for C3: the PullFailure scenario, a single Pull answering
PERMISSION_DENIED "uh-oh" with plenty of fuel left. -/
theorem pullLoop_failure_witness :
    pullLoop (fun _ => false)
        (fun _ => Except.error { code := StatusCode.permissionDenied, message := "uh-oh" })
        10 0 =
      some ({ code := StatusCode.permissionDenied, message := "uh-oh" }, [], 1) :=
  pullLoop_failure (fun _ => false)
    (fun _ => Except.error { code := StatusCode.permissionDenied, message := "uh-oh" })
    9 { code := StatusCode.permissionDenied, message := "uh-oh" } rfl rfl

/-- Helper for C7: the cancellation argument generalized over the loop's
starting iteration index. -/
theorem pullLoop_cancel_from (cancelled : Nat → Bool)
    (pulls : Nat → Except Status PullResponse) (resps : Nat → PullResponse) :
    ∀ (k fuel n : Nat), k < fuel →
      (∀ i, i < k → cancelled (n + i) = false ∧ pulls (n + i) = Except.ok (resps (n + i))) →
      cancelled (n + k) = true →
      ∃ handled, pullLoop cancelled pulls fuel n = some (statusOK, handled, k) := by
  intro k
  induction k with
  | zero =>
      intro fuel n hfuel _ hk
      obtain ⟨f, rfl⟩ : ∃ f, fuel = f + 1 := ⟨fuel - 1, by omega⟩
      have hc : cancelled n = true := by simpa using hk
      refine ⟨[], ?_⟩
      simp [pullLoop, hc]
  | succ k ih =>
      intro fuel n hfuel hbefore hk
      obtain ⟨f, rfl⟩ : ∃ f, fuel = f + 1 := ⟨fuel - 1, by omega⟩
      have hc0 : cancelled n = false := by
        simpa using (hbefore 0 (Nat.succ_pos k)).1
      have hp0 : pulls n = Except.ok (resps n) := by
        simpa using (hbefore 0 (Nat.succ_pos k)).2
      have hrec := ih f (n + 1) (by omega)
        (fun i hi => by
          have := hbefore (i + 1) (by omega)
          constructor
          · have h1 := this.1
            have e : n + (i + 1) = n + 1 + i := by omega
            rwa [e] at h1
          · have h2 := this.2
            have e : n + (i + 1) = n + 1 + i := by omega
            rwa [e] at h2)
        (by
          have e : n + (k + 1) = n + 1 + k := by omega
          rwa [e] at hk)
      obtain ⟨handled, hrec⟩ := hrec
      refine ⟨(resps n).received_messages ++ handled, ?_⟩
      simp [pullLoop, hc0, hp0, hrec]

/-- C7: If the session's cancellation flag becomes set at the head of
iteration k while every earlier Pull succeeded, the loop exits at that
safe point without issuing another Pull (exactly k Pull calls in total)
and the session resolves with status OK — cooperative cancellation is not
an error and never reports CANCELLED. -/
theorem pullLoop_cancel_ok (cancelled : Nat → Bool)
    (pulls : Nat → Except Status PullResponse) (resps : Nat → PullResponse)
    (k fuel : Nat) (hfuel : k < fuel)
    (hbefore : ∀ i, i < k → cancelled i = false ∧ pulls i = Except.ok (resps i))
    (hk : cancelled k = true) :
    ∃ handled, pullLoop cancelled pulls fuel 0 =
      some ({ code := StatusCode.ok, message := "" }, handled, k) := by
  have h := pullLoop_cancel_from cancelled pulls resps k fuel 0 hfuel
    (fun i hi => by simpa using hbefore i hi) (by simpa using hk)
  simpa [statusOK] using h

/-- Witness for C7: the Basic scenario shape — one successful Pull
delivering ack id "test-ack-id-0", then cancel; the session resolves OK
after exactly one Pull. -/
theorem pullLoop_cancel_ok_witness :
    ∃ handled, pullLoop (fun n => decide (1 ≤ n))
        (fun _ => Except.ok { received_messages :=
          [{ ack_id := "test-ack-id-0",
             message := { data := "", message_id := "test-message-id-0" } }] })
        5 0 =
      some ({ code := StatusCode.ok, message := "" }, handled, 1) :=
  pullLoop_cancel_ok (fun n => decide (1 ≤ n))
    (fun _ => Except.ok { received_messages :=
      [{ ack_id := "test-ack-id-0",
         message := { data := "", message_id := "test-message-id-0" } }] })
    (fun _ => { received_messages :=
      [{ ack_id := "test-ack-id-0",
         message := { data := "", message_id := "test-message-id-0" } }] })
    1 5 (by decide)
    (fun i hi => by
      constructor
      · simp
        omega
      · rfl)
    (by decide)

/-- An acknowledge RPC request: subscription plus the ack ids to confirm. -/
structure AcknowledgeRequest where
  subscription : String
  ack_ids : List String
deriving DecidableEq, Repr

/-- A modify-ack-deadline RPC request (deadline 0 is a nack). -/
structure ModifyAckDeadlineRequest where
  subscription : String
  ack_ids : List String
  ack_deadline_seconds : Nat
deriving DecidableEq, Repr

/-- A data-plane transport call issued by an AckHandler. -/
inductive TransportCall where
  | acknowledge (request : AcknowledgeRequest)
  | modifyAckDeadline (request : ModifyAckDeadlineRequest)
deriving DecidableEq, Repr

/-- The AckHandler capability: the subscription's full name, the delivery's
ack id, and the one-shot sentinel recording whether a terminal action has
already consumed the handler. -/
structure AckHandler where
  subscription : String
  ack_id : String
  consumed : Bool
deriving DecidableEq, Repr

/-- A fresh AckHandler as handed to the user's message handler: not yet
consumed. -/
def AckHandler.fresh (sub id : String) : AckHandler :=
  { subscription := sub, ack_id := id, consumed := false }

/-- The two terminal actions a user may attempt on an AckHandler. -/
inductive AckAction where
  | ack
  | nack
deriving DecidableEq, Repr

/-- The transport call a terminal action issues: ack sends Acknowledge with
the handler's single ack id on its subscription; nack sends
ModifyAckDeadline with deadline zero (spec section 4.4). -/
def terminalCall (h : AckHandler) (a : AckAction) : TransportCall :=
  match a with
  | AckAction.ack =>
      TransportCall.acknowledge { subscription := h.subscription, ack_ids := [h.ack_id] }
  | AckAction.nack =>
      TransportCall.modifyAckDeadline
        { subscription := h.subscription, ack_ids := [h.ack_id], ack_deadline_seconds := 0 }

/-- Modelled from the spec: one terminal action on an AckHandler
(section 4.4), whose implementation is not in the repository snapshot.
The first action on an unconsumed handler marks it consumed and issues
its transport call; any action on an already consumed handler is rejected
as a no-op. -/
def AckHandler.act (h : AckHandler) (a : AckAction) : AckHandler × Option TransportCall :=
  if h.consumed then (h, none)
  else ({ h with consumed := true }, some (terminalCall h a))

/-- The transport calls produced by a sequence of terminal actions applied
to one handler in order. -/
def runActions (h : AckHandler) : List AckAction → List TransportCall
  | [] => []
  | a :: rest =>
      match h.act a with
      | (h1, none) => runActions h1 rest
      | (h1, some c) => c :: runActions h1 rest

/-- A consumed handler never produces another transport call. -/
theorem runActions_consumed (sub id : String) (acts : List AckAction) :
    runActions { subscription := sub, ack_id := id, consumed := true } acts = [] := by
  induction acts with
  | nil => rfl
  | cons a rest ih => simpa [runActions, AckHandler.act] using ih

/-- C6: For every AckHandler, any sequence of terminal actions produces at
most one transport call; the first action issues that call — in
particular a first ack issues Acknowledge with ack_ids = [its ack id] on
its subscription — and every later action on the same ack id is a
rejected no-op. -/
theorem ackHandler_one_shot (sub id : String) :
    (∀ acts : List AckAction, (runActions (AckHandler.fresh sub id) acts).length ≤ 1) ∧
      (∀ a : AckAction, ∀ rest : List AckAction,
        runActions (AckHandler.fresh sub id) (a :: rest) =
          [terminalCall (AckHandler.fresh sub id) a]) ∧
      (∀ rest : List AckAction,
        runActions (AckHandler.fresh sub id) (AckAction.ack :: rest) =
          [TransportCall.acknowledge { subscription := sub, ack_ids := [id] }]) := by
  have hfirst : ∀ a : AckAction, ∀ rest : List AckAction,
      runActions (AckHandler.fresh sub id) (a :: rest) =
        [terminalCall (AckHandler.fresh sub id) a] := by
    intro a rest
    simp [runActions, AckHandler.act, AckHandler.fresh, runActions_consumed]
  refine ⟨?_, hfirst, ?_⟩
  · intro acts
    cases acts with
    | nil => simp [runActions]
    | cons a rest => rw [hfirst a rest]; simp
  · intro rest
    rw [hfirst AckAction.ack rest]
    rfl

/-- A transport-layer (gRPC) status as returned by the wrapped stub: ok
when the error code is zero. -/
structure GrpcStatus where
  error_code : Nat
  error_message : String
deriving DecidableEq, Repr

/-- The gRPC notion of success: error code zero. -/
def GrpcStatus.ok (s : GrpcStatus) : Bool := s.error_code == 0

/-- A pull RPC request (spec section 6). -/
structure PullRequest where
  subscription : String
  max_messages : Nat
  return_immediately : Bool := false
deriving DecidableEq, Repr

/-- Embedded from src/google/cloud/pubsub/internal/subscriber_stub.cc,
DefaultSubscriberStub::Pull.  The wrapped gRPC stub is a function from the
request to the transport status plus the response it filled in;
`mapRpcError` stands for google::cloud::MakeStatusFromRpcError, which
lives outside this repository.  The second component records the calls
made on the wrapped stub. -/
def DefaultSubscriberStub.Pull (mapRpcError : GrpcStatus → Status)
    (grpc_stub : PullRequest → GrpcStatus × PullResponse)
    (request : PullRequest) : Except Status PullResponse × List PullRequest :=
  let call := grpc_stub request
  (if call.1.ok then Except.ok call.2 else Except.error (mapRpcError call.1),
   [request])

/-- Embedded from src/google/cloud/pubsub/internal/subscriber_stub.cc,
DefaultSubscriberStub::Acknowledge.  The wrapped call fills a
google::protobuf::Empty, so the response type is Unit; on transport
success the method returns the default-constructed (OK) status. -/
def DefaultSubscriberStub.Acknowledge (mapRpcError : GrpcStatus → Status)
    (grpc_stub : AcknowledgeRequest → GrpcStatus × Unit)
    (request : AcknowledgeRequest) : Status × List AcknowledgeRequest :=
  let call := grpc_stub request
  (if call.1.ok then statusOK else mapRpcError call.1, [request])

/-- Embedded from src/google/cloud/pubsub/internal/subscriber_stub.cc,
DefaultSubscriberStub::ModifyAckDeadline; same shape as Acknowledge. -/
def DefaultSubscriberStub.ModifyAckDeadline (mapRpcError : GrpcStatus → Status)
    (grpc_stub : ModifyAckDeadlineRequest → GrpcStatus × Unit)
    (request : ModifyAckDeadlineRequest) : Status × List ModifyAckDeadlineRequest :=
  let call := grpc_stub request
  (if call.1.ok then statusOK else mapRpcError call.1, [request])

/-- C10: Each of DefaultSubscriberStub's Pull, Acknowledge and
ModifyAckDeadline performs exactly one call on the wrapped gRPC stub,
with the caller's request, and never retries.  When the underlying gRPC
status is ok, Pull returns exactly the response that single call filled
in and Acknowledge / ModifyAckDeadline return OK; otherwise the operation
returns the status produced by the error mapper on the gRPC status and no
partially-filled response escapes. -/
theorem defaultSubscriberStub_single_call (mapRpcError : GrpcStatus → Status)
    (pull_rpc : PullRequest → GrpcStatus × PullResponse)
    (ack_rpc : AcknowledgeRequest → GrpcStatus × Unit)
    (mad_rpc : ModifyAckDeadlineRequest → GrpcStatus × Unit)
    (preq : PullRequest) (areq : AcknowledgeRequest)
    (mreq : ModifyAckDeadlineRequest) :
    (DefaultSubscriberStub.Pull mapRpcError pull_rpc preq).2 = [preq] ∧
      (DefaultSubscriberStub.Acknowledge mapRpcError ack_rpc areq).2 = [areq] ∧
      (DefaultSubscriberStub.ModifyAckDeadline mapRpcError mad_rpc mreq).2 = [mreq] ∧
      ((pull_rpc preq).1.ok = true →
        (DefaultSubscriberStub.Pull mapRpcError pull_rpc preq).1 =
          Except.ok (pull_rpc preq).2) ∧
      ((pull_rpc preq).1.ok = false →
        (DefaultSubscriberStub.Pull mapRpcError pull_rpc preq).1 =
          Except.error (mapRpcError (pull_rpc preq).1)) ∧
      ((ack_rpc areq).1.ok = true →
        (DefaultSubscriberStub.Acknowledge mapRpcError ack_rpc areq).1 = statusOK) ∧
      ((ack_rpc areq).1.ok = false →
        (DefaultSubscriberStub.Acknowledge mapRpcError ack_rpc areq).1 =
          mapRpcError (ack_rpc areq).1) ∧
      ((mad_rpc mreq).1.ok = true →
        (DefaultSubscriberStub.ModifyAckDeadline mapRpcError mad_rpc mreq).1 = statusOK) ∧
      ((mad_rpc mreq).1.ok = false →
        (DefaultSubscriberStub.ModifyAckDeadline mapRpcError mad_rpc mreq).1 =
          mapRpcError (mad_rpc mreq).1) := by
  refine ⟨rfl, rfl, rfl, ?_, ?_, ?_, ?_, ?_, ?_⟩ <;>
    intro h <;>
    simp [DefaultSubscriberStub.Pull, DefaultSubscriberStub.Acknowledge,
      DefaultSubscriberStub.ModifyAckDeadline, h]

/-- The error mapper used by the C10 witness: PERMISSION_DENIED carrying
the transport error message. -/
def mapPermissionDenied (g : GrpcStatus) : Status :=
  { code := StatusCode.permissionDenied, message := g.error_message }

/-- The C10 witness's Pull transport: gRPC OK with one received message. -/
def pullRpcOk (_ : PullRequest) : GrpcStatus × PullResponse :=
  ({ error_code := 0, error_message := "" },
   { received_messages :=
      [{ ack_id := "test-ack-id-0",
         message := { data := "", message_id := "test-message-id-0" } }] })

/-- The C10 witness's Acknowledge transport: gRPC error code 7. -/
def ackRpcFail (_ : AcknowledgeRequest) : GrpcStatus × Unit :=
  ({ error_code := 7, error_message := "uh-oh" }, ())

/-- The C10 witness's ModifyAckDeadline transport: gRPC OK. -/
def madRpcOk (_ : ModifyAckDeadlineRequest) : GrpcStatus × Unit :=
  ({ error_code := 0, error_message := "" }, ())

/-- The pull request used by the C10 witness. -/
def pullReq0 : PullRequest :=
  { subscription := "projects/test-project/subscriptions/test-subscription",
    max_messages := 1 }

/-- The acknowledge request used by the C10 witness. -/
def ackReq0 : AcknowledgeRequest :=
  { subscription := "projects/test-project/subscriptions/test-subscription",
    ack_ids := ["test-ack-id-0"] }

/-- The modify-ack-deadline request used by the C10 witness. -/
def madReq0 : ModifyAckDeadlineRequest :=
  { subscription := "projects/test-project/subscriptions/test-subscription",
    ack_ids := ["test-ack-id-0"], ack_deadline_seconds := 0 }

/-- Witness for C10: a stub whose Pull succeeds with one received message
and whose Acknowledge fails with gRPC code 7 mapped to PERMISSION_DENIED:
Pull surfaces exactly the filled response, Acknowledge surfaces the
mapped status, and Acknowledge made exactly its one underlying call. -/
theorem defaultSubscriberStub_single_call_witness :
    (DefaultSubscriberStub.Pull mapPermissionDenied pullRpcOk pullReq0).1 =
        Except.ok (pullRpcOk pullReq0).2 ∧
      (DefaultSubscriberStub.Acknowledge mapPermissionDenied ackRpcFail ackReq0).1 =
        { code := StatusCode.permissionDenied, message := "uh-oh" } ∧
      (DefaultSubscriberStub.Acknowledge mapPermissionDenied ackRpcFail ackReq0).2 =
        [ackReq0] := by
  have h := defaultSubscriberStub_single_call mapPermissionDenied
    pullRpcOk ackRpcFail madRpcOk pullReq0 ackReq0 madReq0
  exact ⟨h.2.2.2.1 rfl, h.2.2.2.2.2.2.1 rfl, h.2.1⟩
